import Mathlib

/-!
# The external scaling-query adapter of the gateway (`gateway/plugin/external.go`)

A shallow embedding of `extractLabelValue`, `ExternalServiceQuery.GetReplicas` and
`ExternalServiceQuery.SetReplicas`, followed by theorems about them.

Conventions of the embedding:

* Go `string` is `String`; Go `uint64` is `Nat` (reduced `% 2 ^ 64` where a conversion or an
  arithmetic step can wrap); Go `int` is `Int`, 64 bits wide.
* A Go `error` is the text of its message; the `nil` error is `none`.
* A Go `map[string]string` is an association list, indexed with `GoMap.index`; a pointer to a
  map is an `Option`.
* Calls into the Go standard library whose result depends on the outside world
  (`http.NewRequest`, `http.Client.Do`, `json.Marshal`, `json.Unmarshal`) are fields of
  `Lib` and of `ExternalServiceQuery`, so every theorem quantifies over all their behaviours.
* `log.Printf`, `time.Now` and the deferred `Body.Close` calls have no effect on the returned
  values and are left out.
-/

namespace Faas

/-! ## `strconv.Atoi` -/

/-- The two error kinds of package `strconv`: `ErrSyntax` and `ErrRange`. -/
inductive NumError where
  | ErrSyntax
  | ErrRange
  deriving DecidableEq, Repr

/-- The constant `maxUint64` of package `strconv`, `1<<64 - 1`. -/
def maxUint64 : Nat := 18446744073709551615

/-- The digit loop of `strconv.ParseUint(s, 10, 64)` over the remaining bytes, with the
accumulator `n`.  A byte outside `'0'..'9'` is a syntax error (a letter is a digit value of at
least ten, which base 10 rejects); `n >= cutoff` and a wrapping `n + d` are range errors. -/
def parseUintLoop : List Char → Nat → Except NumError Nat
  | [], n => .ok n
  | c :: cs, n =>
    if 48 ≤ c.toNat ∧ c.toNat ≤ 57 then
      let d := c.toNat - 48
      if n ≥ maxUint64 / 10 + 1 then .error .ErrRange
      else
        let n10 := (n * 10) % 2 ^ 64
        let n1 := (n10 + d) % 2 ^ 64
        if n1 < n10 ∨ n1 > maxUint64 then .error .ErrRange
        else parseUintLoop cs n1
    else .error .ErrSyntax

/-- The function `strconv.ParseUint(s, 10, 64)`: the empty string is a syntax error. -/
def ParseUint (s : String) : Except NumError Nat :=
  if s = "" then .error .ErrSyntax else parseUintLoop s.toList 0

/-- The function `strconv.ParseInt(s, 10, 0)` with a 64-bit `int`: picks off a leading sign,
converts the rest unsigned and checks the range `[-2^63, 2^63 - 1]`.  On a range error of
`ParseUint` the unsigned value is `maxUint64`, which the range check then rejects. -/
def ParseInt (s : String) : Except NumError Int :=
  if s = "" then .error .ErrSyntax
  else
    let (neg, rest) : Bool × List Char :=
      match s.toList with
      | '+' :: cs => (false, cs)
      | '-' :: cs => (true, cs)
      | cs => (false, cs)
    match ParseUint (String.mk rest) with
    | .error .ErrSyntax => .error .ErrSyntax
    | r =>
      let un : Nat := match r with
        | .ok un => un
        | .error _ => maxUint64
      let cutoff : Nat := 2 ^ 63
      if neg = false ∧ un ≥ cutoff then .error .ErrRange
      else if neg = true ∧ un > cutoff then .error .ErrRange
      else if neg then .ok (-(un : Int)) else .ok (un : Int)

/-- The function `strconv.Atoi`, documented as `ParseInt(s, 10, 0)` converted to `int`; its
fast path for strings shorter than 19 bytes computes the same result without range checks. -/
def Atoi (s : String) : Except NumError Int := ParseInt s

/-- The Go conversion `uint64(v)` of an `int`: two's complement, so a negative `v` wraps. -/
def uint64OfInt (v : Int) : Nat := (v % 18446744073709551616).toNat

/-! ## `extractLabelValue` -/

/-- The function `extractLabelValue`: parses the raw label value and returns the fallback
when the value is empty or `strconv.Atoi` reports an error. -/
def extractLabelValue (rawLabelValue : String) (fallback : Nat) : Nat :=
  if rawLabelValue.length ≤ 0 then fallback
  else
    match Atoi rawLabelValue with
    | .error _ => fallback
    | .ok value => uint64OfInt value

/-! ## Data model -/

/-- A Go `error` value, represented by its message. -/
abbrev Error := String

/-- A Go `map[string]string`. -/
abbrev GoMap := List (String × String)

/-- The Go index expression `m[key]` on a `map[string]string`: the zero value `""` when the key
is absent. -/
def GoMap.index (m : GoMap) (key : String) : String :=
  match m.lookup key with
  | some v => v
  | none => ""

/-- The constants of package `scaling` that `GetReplicas` reads (the package is not part of the
translated source, so they are parameters): the three defaults, already converted with
`uint64(...)`, and the three label keys. -/
structure ScalingConsts where
  DefaultMinReplicas : Nat
  DefaultMaxReplicas : Nat
  DefaultScalingFactor : Nat
  MinScaleLabel : String
  MaxScaleLabel : String
  ScalingFactorLabel : String

/-- The fields of `types.FunctionStatus` that `GetReplicas` reads. -/
structure FunctionStatus where
  Replicas : Nat
  AvailableReplicas : Nat
  Annotations : Option GoMap
  Labels : Option GoMap

/-- The struct `types.ScaleServiceRequest`. -/
structure ScaleServiceRequest where
  ServiceName : String
  Replicas : Nat

/-- The struct `scaling.ServiceQueryResponse`, with the fields `GetReplicas` fills in. -/
structure ServiceQueryResponse where
  Replicas : Nat
  MaxReplicas : Nat
  MinReplicas : Nat
  ScalingFactor : Nat
  AvailableReplicas : Nat
  Annotations : Option GoMap
  deriving DecidableEq

/-- The zero value of `scaling.ServiceQueryResponse`. -/
def emptyServiceQueryResponse : ServiceQueryResponse :=
  { Replicas := 0, MaxReplicas := 0, MinReplicas := 0, ScalingFactor := 0,
    AvailableReplicas := 0, Annotations := none }

/-- An outgoing `http.Request`: method, URL, body and headers. -/
structure Request where
  Method : String
  URL : String
  Body : Option String
  Header : List (String × String)
  deriving DecidableEq

/-- An `http.Response` as the adapter sees it: the status code, and the bytes `io.ReadAll`
yields from the body, `none` when `res.Body` is `nil`. -/
structure Response where
  StatusCode : Int
  Body : Option String
  deriving DecidableEq

/-- The result `(res, err)` of `http.Client.Do`.  By the contract of `Do` the response is
non-nil when the error is nil, the response is nil on a transport failure, and both are non-nil
only when a redirect policy fails. -/
inductive DoResult where
  | ok (res : Response)
  | fail (err : Error)
  | redirectFail (res : Response) (err : Error)

/-- The library calls both operations make, as parameters: `http.NewRequest(method, url, body)`,
`json.Marshal` of a scale request and `json.Unmarshal` of a body into a function status. -/
structure Lib where
  NewRequest : String → String → Option String → Except Error Request
  Marshal : ScaleServiceRequest → Except Error String
  Unmarshal : String → Except Error FunctionStatus

/-- The struct `ExternalServiceQuery`: `URL` is `s.URL.String()`, `ProxyClient` is the behaviour
of `s.ProxyClient.Do`, and `AuthInjector` is `none` for a nil injector and otherwise what
`Inject` does to the request. -/
structure ExternalServiceQuery where
  URL : String
  ProxyClient : Request → DoResult
  AuthInjector : Option (Request → Request)
  IncludeUsage : Bool

/-- What a call does: it returns a value, or the goroutine panics. -/
inductive Outcome (α : Type) where
  | returned (a : α)
  | panic
  deriving DecidableEq

/-- The constant `http.StatusOK`. -/
def StatusOK : Int := 200

/-- The constant `http.StatusAccepted`. -/
def StatusAccepted : Int := 202

/-- The step `if s.AuthInjector != nil { s.AuthInjector.Inject(req) }`. -/
def ExternalServiceQuery.inject (s : ExternalServiceQuery) (req : Request) : Request :=
  match s.AuthInjector with
  | some inj => inj req
  | none => req

/-! ## `GetReplicas` -/

/-- The error of the non-200 branch:
`"server returned non-200 status code (%d) for function, %s, body: %s"`. -/
def non200Error (code : Int) (serviceName body : String) : Error :=
  "server returned non-200 status code (" ++ toString code ++ ") for function, " ++
    serviceName ++ ", body: " ++ body

/-- The error of the range check: `"bad scaling factor: %d, is not in range of [0 - 100]"`. -/
def badScalingFactorError (extractedScalingFactor : Nat) : Error :=
  "bad scaling factor: " ++ toString extractedScalingFactor ++ ", is not in range of [0 - 100]"

/-- The request URL of `GetReplicas`:
`fmt.Sprintf("%ssystem/function/%s?namespace=%s&usage=%v", ...)`. -/
def functionURL (s : ExternalServiceQuery) (serviceName serviceNamespace : String) : String :=
  s.URL ++ "system/function/" ++ serviceName ++ "?namespace=" ++ serviceNamespace ++
    "&usage=" ++ toString s.IncludeUsage

/-- The bytes `bytesOut` of `GetReplicas`: what `io.ReadAll` yields when `res.Body` is not nil,
and the nil slice otherwise. -/
def readBody (res : Response) : String :=
  match res.Body with
  | some body => body
  | none => ""

/-- The tail of `GetReplicas` after a successful decode into `function`: the defaults, the
label overrides and range check when `function.Labels` is not nil, and the final struct. -/
def policyResponse (c : ScalingConsts) (function : FunctionStatus) :
    ServiceQueryResponse × Option Error :=
  let minReplicas := c.DefaultMinReplicas
  let maxReplicas := c.DefaultMaxReplicas
  let scalingFactor := c.DefaultScalingFactor
  let availableReplicas := function.AvailableReplicas
  match function.Labels with
  | some labels =>
    let minReplicas := extractLabelValue (labels.index c.MinScaleLabel) minReplicas
    let maxReplicas := extractLabelValue (labels.index c.MaxScaleLabel) maxReplicas
    let extractedScalingFactor :=
      extractLabelValue (labels.index c.ScalingFactorLabel) scalingFactor
    if extractedScalingFactor > 0 ∧ extractedScalingFactor ≤ 100 then
      ({ Replicas := function.Replicas, MaxReplicas := maxReplicas,
         MinReplicas := minReplicas, ScalingFactor := extractedScalingFactor,
         AvailableReplicas := availableReplicas,
         Annotations := function.Annotations }, none)
    else
      (emptyServiceQueryResponse, some (badScalingFactorError extractedScalingFactor))
  | none =>
    ({ Replicas := function.Replicas, MaxReplicas := maxReplicas,
       MinReplicas := minReplicas, ScalingFactor := scalingFactor,
       AvailableReplicas := availableReplicas,
       Annotations := function.Annotations }, none)

/-- The method `ExternalServiceQuery.GetReplicas`.  Every early return hands back
`emptyServiceQueryResponse`; the `err` of the final `return` is the nil error left by `Do`. -/
def GetReplicas (lib : Lib) (c : ScalingConsts) (s : ExternalServiceQuery)
    (serviceName serviceNamespace : String) : ServiceQueryResponse × Option Error :=
  let urlPath := functionURL s serviceName serviceNamespace
  match lib.NewRequest "GET" urlPath none with
  | .error err => (emptyServiceQueryResponse, some err)
  | .ok req =>
    match s.ProxyClient (s.inject req) with
    | .fail err => (emptyServiceQueryResponse, some err)
    | .redirectFail _ err => (emptyServiceQueryResponse, some err)
    | .ok res =>
      let bytesOut := readBody res
      if res.StatusCode = StatusOK then
        match lib.Unmarshal bytesOut with
        | .error err => (emptyServiceQueryResponse, some err)
        | .ok function => policyResponse c function
      else
        (emptyServiceQueryResponse, some (non200Error res.StatusCode serviceName bytesOut))

/-! ## `SetReplicas` -/

/-- The error of the status check: `"error scaling HTTP code %d, %s"`. -/
def scalingError (code : Int) (urlPath : String) : Error :=
  "error scaling HTTP code " ++ toString code ++ ", " ++ urlPath

/-- The request URL of `SetReplicas`:
`fmt.Sprintf("%ssystem/scale-function/%s?namespace=%s", ...)`. -/
def scaleFunctionURL (s : ExternalServiceQuery) (serviceName serviceNamespace : String) :
    String :=
  s.URL ++ "system/scale-function/" ++ serviceName ++ "?namespace=" ++ serviceNamespace

/-- The tail of `SetReplicas` once `res` is a non-nil response: the status check may replace
the error `err` left by `Do`, and `err` is returned. -/
def statusCheck (res : Response) (err : Option Error) (urlPath : String) : Option Error :=
  if ¬ (res.StatusCode = StatusOK ∨ res.StatusCode = StatusAccepted) then
    some (scalingError res.StatusCode urlPath)
  else err

/-- The method `ExternalServiceQuery.SetReplicas`.  The error of `http.NewRequest` is dropped,
so on failure `req` is nil and `req.Body` panics; after a transport failure `res` is nil, the
error is only logged, and `res.StatusCode` panics. -/
def SetReplicas (lib : Lib) (s : ExternalServiceQuery)
    (serviceName serviceNamespace : String) (count : Nat) : Outcome (Option Error) :=
  let scaleReq : ScaleServiceRequest := { ServiceName := serviceName, Replicas := count }
  match lib.Marshal scaleReq with
  | .error err => .returned (some err)
  | .ok requestBody =>
    let urlPath := scaleFunctionURL s serviceName serviceNamespace
    match lib.NewRequest "POST" urlPath (some requestBody) with
    | .error _ => .panic
    | .ok req =>
      match s.ProxyClient (s.inject req) with
      | .fail _ => .panic
      | .ok res => .returned (statusCheck res none urlPath)
      | .redirectFail res err => .returned (statusCheck res (some err) urlPath)

/-! ## Concrete scenarios -/

/-- A sample set of `scaling` constants for the concrete scenarios: in-range defaults and the
label keys `com.openfaas.scale.min`, `com.openfaas.scale.max`, `com.openfaas.scale.factor`. -/
def sampleConsts : ScalingConsts :=
  { DefaultMinReplicas := 1, DefaultMaxReplicas := 5, DefaultScalingFactor := 10,
    MinScaleLabel := "com.openfaas.scale.min", MaxScaleLabel := "com.openfaas.scale.max",
    ScalingFactorLabel := "com.openfaas.scale.factor" }

/-- A sample library behaviour: every request is well formed, a scale request serialises to its
JSON text, and every body decodes to the function status `st`. -/
def sampleLib (st : FunctionStatus) : Lib :=
  { NewRequest := fun method url body =>
      .ok { Method := method, URL := url, Body := body, Header := [] },
    Marshal := fun r =>
      .ok ("\x7b\"serviceName\":\"" ++ r.ServiceName ++ "\",\"replicas\":" ++
        toString r.Replicas ++ "\x7d"),
    Unmarshal := fun _ => .ok st }

/-- A sample adapter whose HTTP client answers every request with `result`; no injector. -/
def sampleQuery (result : DoResult) : ExternalServiceQuery :=
  { URL := "http://127.0.0.1:8081/", ProxyClient := fun _ => result, AuthInjector := none,
    IncludeUsage := false }

/-- The remote status of the scenario workload `echo`: three replicas, all available, no
annotations, and the given labels. -/
def echoStatus (labels : Option GoMap) : FunctionStatus :=
  { Replicas := 3, AvailableReplicas := 3, Annotations := none, Labels := labels }

/-! ## Decimal numerals and `strconv.Atoi` -/

/-- The value a run of decimal digit bytes adds to the accumulator `a`. -/
def digitsValue (a : Nat) (ds : List Char) : Nat :=
  ds.foldl (fun acc ch => acc * 10 + (ch.toNat - 48)) a

theorem digitsValue_ge (ds : List Char) : ∀ a, a ≤ digitsValue a ds := by
  induction ds with
  | nil => intro a; exact Nat.le_refl a
  | cons ch cs ih =>
    intro a
    have h := ih (a * 10 + (ch.toNat - 48))
    simp only [digitsValue, List.foldl_cons] at h ⊢
    omega

theorem parseUintLoop_digits (ds : List Char) :
    ∀ a, (∀ ch ∈ ds, 48 ≤ ch.toNat ∧ ch.toNat ≤ 57) → digitsValue a ds < 2 ^ 64 →
      parseUintLoop ds a = .ok (digitsValue a ds) := by
  induction ds with
  | nil => intro a _ _; rfl
  | cons ch cs ih =>
    intro a hd hlt
    have hch := hd ch (List.mem_cons_self ch cs)
    have hcs : ∀ x ∈ cs, 48 ≤ x.toNat ∧ x.toNat ≤ 57 :=
      fun x hx => hd x (List.mem_cons_of_mem ch hx)
    have hstep : digitsValue a (ch :: cs) = digitsValue (a * 10 + (ch.toNat - 48)) cs := rfl
    have hge := digitsValue_ge cs (a * 10 + (ch.toNat - 48))
    rw [hstep] at hlt ⊢
    have hsmall : a * 10 + (ch.toNat - 48) < 2 ^ 64 := Nat.lt_of_le_of_lt hge hlt
    have h10 : a * 10 % 2 ^ 64 = a * 10 := Nat.mod_eq_of_lt (by omega)
    have h1 : (a * 10 + (ch.toNat - 48)) % 2 ^ 64 = a * 10 + (ch.toNat - 48) :=
      Nat.mod_eq_of_lt hsmall
    have hcut : ¬ a ≥ maxUint64 / 10 + 1 := by
      simp only [maxUint64]
      omega
    have hwrap : ¬ (a * 10 + (ch.toNat - 48) < a * 10 ∨
        a * 10 + (ch.toNat - 48) > maxUint64) := by
      simp only [maxUint64]
      omega
    simp only [parseUintLoop, hch, and_self, if_true, hcut, if_false, h10, h1, hwrap]
    exact ih _ hcs hlt

theorem digitChar_toNat (d : Nat) (h : d < 10) : (Nat.digitChar d).toNat = 48 + d := by
  interval_cases d <;> rfl

theorem toDigitsCore_spec (fuel : Nat) :
    ∀ n ds, n < fuel → ∃ pre, Nat.toDigitsCore 10 fuel n ds = pre ++ ds ∧ pre ≠ [] ∧
      (∀ ch ∈ pre, 48 ≤ ch.toNat ∧ ch.toNat ≤ 57) ∧ digitsValue 0 pre = n := by
  induction fuel with
  | zero => intro n ds h; omega
  | succ fuel ih =>
    intro n ds hn
    have hmod : n % 10 < 10 := Nat.mod_lt n (by decide)
    have hd := digitChar_toNat (n % 10) hmod
    by_cases h0 : n / 10 = 0
    · refine ⟨[Nat.digitChar (n % 10)], ?_, by simp, ?_, ?_⟩
      · simp [Nat.toDigitsCore, h0]
      · intro ch hch
        rw [List.mem_singleton] at hch
        subst hch
        omega
      · simp only [digitsValue, List.foldl_cons, List.foldl_nil, hd]
        omega
    · have hlt : n / 10 < fuel := by omega
      obtain ⟨pre, hpre, _, hdig, hval⟩ := ih (n / 10) (Nat.digitChar (n % 10) :: ds) hlt
      refine ⟨pre ++ [Nat.digitChar (n % 10)], ?_, by simp, ?_, ?_⟩
      · simp [Nat.toDigitsCore, h0, hpre]
      · intro ch hch
        rcases List.mem_append.mp hch with h | h
        · exact hdig ch h
        · rw [List.mem_singleton] at h
          subst h
          omega
      · simp only [digitsValue, List.foldl_append, List.foldl_cons, List.foldl_nil, hd] at hval ⊢
        rw [hval]
        omega

theorem ParseUint_digits (ds : List Char) (hne : ds ≠ [])
    (hd : ∀ ch ∈ ds, 48 ≤ ch.toNat ∧ ch.toNat ≤ 57) (hlt : digitsValue 0 ds < 2 ^ 64) :
    ParseUint (String.mk ds) = .ok (digitsValue 0 ds) := by
  have hs : String.mk ds ≠ "" := by
    intro h
    exact hne (congrArg String.data h)
  simp only [ParseUint, hs, if_false]
  exact parseUintLoop_digits ds 0 hd hlt

theorem ParseInt_digits (ds : List Char) (hne : ds ≠ [])
    (hd : ∀ ch ∈ ds, 48 ≤ ch.toNat ∧ ch.toNat ≤ 57) (hlt : digitsValue 0 ds < 2 ^ 63) :
    ParseInt (String.mk ds) = .ok (digitsValue 0 ds : Int) := by
  have hs : String.mk ds ≠ "" := by
    intro h
    exact hne (congrArg String.data h)
  have hu := ParseUint_digits ds hne hd (by omega)
  cases ds with
  | nil => exact absurd rfl hne
  | cons ch cs =>
    have hch := hd ch (List.mem_cons_self ch cs)
    have hplus : ch ≠ '+' := by
      intro h
      subst h
      revert hch
      decide
    have hminus : ch ≠ '-' := by
      intro h
      subst h
      revert hch
      decide
    have hsplit : (match (String.mk (ch :: cs)).toList with
        | '+' :: r => ((false, r) : Bool × List Char)
        | '-' :: r => (true, r)
        | r => (false, r)) = (false, ch :: cs) := by
      show (match ch :: cs with
        | '+' :: r => ((false, r) : Bool × List Char)
        | '-' :: r => (true, r)
        | r => (false, r)) = (false, ch :: cs)
      split
      · next h => exact absurd (List.cons.inj h).1 hplus
      · next h => exact absurd (List.cons.inj h).1 hminus
      · rfl
    have hrange : ¬ digitsValue 0 (ch :: cs) ≥ 2 ^ 63 := by omega
    simp only [ParseInt, hs, if_false, hsplit, hu]
    simp
    omega

theorem Atoi_toString (v : Nat) (hv : v < 2 ^ 63) : Atoi (toString v) = .ok (v : Int) := by
  obtain ⟨pre, hpre, hne, hdig, hval⟩ := toDigitsCore_spec (v + 1) v [] (Nat.lt_succ_self v)
  have hstr : toString v = String.mk pre := by
    show (Nat.toDigits 10 v).asString = String.mk pre
    simp only [Nat.toDigits, hpre, List.append_nil, List.asString]
  have h := ParseInt_digits pre hne hdig (by omega)
  rw [hval] at h
  rw [Atoi, hstr]
  exact h

theorem uint64OfInt_natCast (v : Nat) (hv : v < 2 ^ 64) : uint64OfInt (v : Int) = v := by
  simp only [uint64OfInt]
  omega

theorem toString_nat_length_pos (v : Nat) : ¬ (toString v).length ≤ 0 := by
  obtain ⟨pre, hpre, hne, _, _⟩ := toDigitsCore_spec (v + 1) v [] (Nat.lt_succ_self v)
  have hstr : toString v = String.mk pre := by
    show (Nat.toDigits 10 v).asString = String.mk pre
    simp only [Nat.toDigits, hpre, List.append_nil, List.asString]
  rw [hstr]
  cases pre with
  | nil => exact absurd rfl hne
  | cons ch cs => simp [String.length]

theorem extractLabelValue_toString (v fallback : Nat) (hv : v < 2 ^ 63) :
    extractLabelValue (toString v) fallback = v := by
  simp only [extractLabelValue, toString_nat_length_pos v, if_false, Atoi_toString v hv]
  exact uint64OfInt_natCast v (by omega)

theorem parseUintLoop_error_of_nondigit (ds : List Char) :
    ∀ a, (∃ ch ∈ ds, ¬ (48 ≤ ch.toNat ∧ ch.toNat ≤ 57)) →
      ∃ e, parseUintLoop ds a = .error e := by
  induction ds with
  | nil =>
    intro a h
    obtain ⟨ch, hmem, _⟩ := h
    cases hmem
  | cons c cs ih =>
    intro a h
    by_cases hc : 48 ≤ c.toNat ∧ c.toNat ≤ 57
    · have hrest : ∃ ch ∈ cs, ¬ (48 ≤ ch.toNat ∧ ch.toNat ≤ 57) := by
        obtain ⟨ch, hmem, hbad⟩ := h
        rcases List.mem_cons.mp hmem with heq | htail
        · subst heq
          exact absurd hc hbad
        · exact ⟨ch, htail, hbad⟩
      simp only [parseUintLoop, hc, and_self, if_true]
      split
      · exact ⟨_, rfl⟩
      · split
        · exact ⟨_, rfl⟩
        · exact ih _ hrest
    · exact ⟨.ErrSyntax, by simp only [parseUintLoop, hc, if_false]⟩

/-- Every string holding a character that is neither a decimal digit nor a sign is rejected by
`strconv.Atoi`. -/
theorem Atoi_error_of_non_numeral (raw : String)
    (h : ∃ ch ∈ raw.toList, ¬ (48 ≤ ch.toNat ∧ ch.toNat ≤ 57) ∧ ch ≠ '+' ∧ ch ≠ '-') :
    ∃ e, Atoi raw = .error e := by
  obtain ⟨ch, hmem, hdig, hplus, hminus⟩ := h
  have key : ∀ (neg : Bool) (rest : List Char), ch ∈ rest →
      ∃ e, (match ParseUint (String.mk rest) with
        | .error .ErrSyntax => (.error .ErrSyntax : Except NumError Int)
        | r =>
          let un : Nat := match r with
            | .ok un => un
            | .error _ => maxUint64
          let cutoff : Nat := 2 ^ 63
          if neg = false ∧ un ≥ cutoff then .error .ErrRange
          else if neg = true ∧ un > cutoff then .error .ErrRange
          else if neg then .ok (-(un : Int)) else .ok (un : Int)) = .error e := by
    intro neg rest hrest
    have hne : String.mk rest ≠ "" := by
      intro hs
      have : rest = [] := congrArg String.data hs
      subst this
      cases hrest
    obtain ⟨e, he⟩ := parseUintLoop_error_of_nondigit rest 0 ⟨ch, hrest, hdig⟩
    have hu : ParseUint (String.mk rest) = .error e := by
      simp only [ParseUint, hne, if_false]
      exact he
    rw [hu]
    cases e with
    | ErrSyntax => exact ⟨_, rfl⟩
    | ErrRange =>
      cases neg with
      | false => exact ⟨.ErrRange, by simp [maxUint64]⟩
      | true => exact ⟨.ErrRange, by simp [maxUint64]⟩
  have hpair : ∃ neg rest, (match raw.toList with
      | '+' :: r => ((false, r) : Bool × List Char)
      | '-' :: r => (true, r)
      | r => (false, r)) = (neg, rest) ∧ ch ∈ rest := by
    split
    · next r heq =>
      rw [heq] at hmem
      rcases List.mem_cons.mp hmem with h1 | h1
      · exact absurd h1 hplus
      · exact ⟨false, r, rfl, h1⟩
    · next r heq =>
      rw [heq] at hmem
      rcases List.mem_cons.mp hmem with h1 | h1
      · exact absurd h1 hminus
      · exact ⟨true, r, rfl, h1⟩
    · exact ⟨false, raw.toList, rfl, hmem⟩
  obtain ⟨neg, rest, hp, hrest⟩ := hpair
  by_cases hs : raw = ""
  · exact ⟨.ErrSyntax, by simp [Atoi, ParseInt, hs]⟩
  · simp only [Atoi, ParseInt, hs, if_false, hp]
    exact key neg rest hrest

/-! ## The two operations along their paths -/

theorem GetReplicas_of_decoded (lib : Lib) (c : ScalingConsts) (s : ExternalServiceQuery)
    (serviceName serviceNamespace : String) (req : Request) (res : Response)
    (st : FunctionStatus)
    (hreq : lib.NewRequest "GET" (functionURL s serviceName serviceNamespace) none = .ok req)
    (hdo : s.ProxyClient (s.inject req) = .ok res)
    (hcode : res.StatusCode = 200)
    (hdec : lib.Unmarshal (readBody res) = .ok st) :
    GetReplicas lib c s serviceName serviceNamespace = policyResponse c st := by
  simp [GetReplicas, hreq, hdo, hcode, StatusOK, hdec]

theorem GoMap.index_of_lookup (m : GoMap) (key v : String) (h : m.lookup key = some v) :
    m.index key = v := by
  simp [GoMap.index, h]

theorem GoMap.index_of_lookup_none (m : GoMap) (key : String) (h : m.lookup key = none) :
    m.index key = "" := by
  simp [GoMap.index, h]

/-! ## `extractLabelValue` -/

theorem extractLabelValue_empty (fallback : Nat) : extractLabelValue "" fallback = fallback := by
  simp [extractLabelValue]

theorem extractLabelValue_of_Atoi_error (raw : String) (fallback : Nat) (e : NumError)
    (h : Atoi raw = .error e) : extractLabelValue raw fallback = fallback := by
  simp only [extractLabelValue, h]
  split <;> rfl

theorem extractLabelValue_of_Atoi_ok (raw : String) (fallback : Nat) (v : Nat)
    (hv : v < 2 ^ 64) (h : Atoi raw = .ok (v : Int)) : extractLabelValue raw fallback = v := by
  have hne : ¬ raw.length ≤ 0 := by
    intro hlen
    have hnil : raw.data = [] := List.length_eq_zero.mp (Nat.le_zero.mp hlen)
    have hraw : raw = "" := by
      cases raw
      simp only at hnil
      subst hnil
      rfl
    rw [hraw] at h
    cases h
  simp only [extractLabelValue, hne, if_false, h]
  exact uint64OfInt_natCast v hv


/-- Claim C1, at the input where the code leaves it: the label `"-5"` does not denote a
non-negative integer, yet `strconv.Atoi` parses it as `-5` and `extractLabelValue` returns the
wrapped conversion `2^64 - 5` instead of the fallback, whatever the fallback is. -/
theorem extractLabelValue_negative_label_wraps :
    Atoi "-5" = .ok (-5) ∧ ∀ fallback, extractLabelValue "-5" fallback = 18446744073709551611 := by
  have h : Atoi "-5" = .ok (-5) := rfl
  refine ⟨h, fun fallback => ?_⟩
  have hlen : ¬ ("-5".length ≤ 0) := by decide
  simp only [extractLabelValue, hlen, if_false, h]
  decide

/-! ## `SetReplicas` -/

/-- Claim C2, as the code behaves: when the request is built and the single round trip fails
at transport level (`Do` returns an error and a nil response), `SetReplicas` only logs the
error, goes on to read `res.StatusCode` of the nil response, and panics; no error is returned. -/
theorem SetReplicas_transport_failure_panics (lib : Lib) (s : ExternalServiceQuery)
    (serviceName serviceNamespace : String) (count : Nat) (requestBody : String)
    (req : Request) (err : Error)
    (hmarshal : lib.Marshal { ServiceName := serviceName, Replicas := count } = .ok requestBody)
    (hreq : lib.NewRequest "POST" (scaleFunctionURL s serviceName serviceNamespace)
      (some requestBody) = .ok req)
    (hdo : s.ProxyClient (s.inject req) = .fail err) :
    SetReplicas lib s serviceName serviceNamespace count = .panic := by
  simp [SetReplicas, hmarshal, hreq, hdo]

theorem SetReplicas_transport_failure_panics_witness :
    SetReplicas (sampleLib (echoStatus none)) (sampleQuery (.fail "connection refused"))
      "echo" "openfaas-fn" 5 = .panic :=
  SetReplicas_transport_failure_panics (sampleLib (echoStatus none))
    (sampleQuery (.fail "connection refused")) "echo" "openfaas-fn" 5 _ _ "connection refused"
    rfl rfl rfl

/-- Claim C5: when the request is built and the remote returns a response `res` (with a nil
error), `SetReplicas` returns, and the returned error is nil if and only if the status code is
200 or 202; for every other status code it is the non-nil `error scaling HTTP code` error. -/
theorem SetReplicas_nil_error_iff_200_or_202 (lib : Lib) (s : ExternalServiceQuery)
    (serviceName serviceNamespace : String) (count : Nat) (requestBody : String)
    (req : Request) (res : Response)
    (hmarshal : lib.Marshal { ServiceName := serviceName, Replicas := count } = .ok requestBody)
    (hreq : lib.NewRequest "POST" (scaleFunctionURL s serviceName serviceNamespace)
      (some requestBody) = .ok req)
    (hdo : s.ProxyClient (s.inject req) = .ok res) :
    ∃ err, SetReplicas lib s serviceName serviceNamespace count = .returned err ∧
      (err = none ↔ (res.StatusCode = 200 ∨ res.StatusCode = 202)) ∧
      (¬ (res.StatusCode = 200 ∨ res.StatusCode = 202) →
        err = some (scalingError res.StatusCode
          (scaleFunctionURL s serviceName serviceNamespace))) := by
  refine ⟨statusCheck res none (scaleFunctionURL s serviceName serviceNamespace), ?_, ?_, ?_⟩
  · simp [SetReplicas, hmarshal, hreq, hdo]
  · by_cases h : res.StatusCode = 200 ∨ res.StatusCode = 202
    · simp [statusCheck, StatusOK, StatusAccepted, h]
    · simp [statusCheck, StatusOK, StatusAccepted, h]
  · intro h
    simp [statusCheck, StatusOK, StatusAccepted, h]

theorem SetReplicas_nil_error_iff_200_or_202_witness :
    SetReplicas (sampleLib (echoStatus none))
      (sampleQuery (.ok { StatusCode := 202, Body := none })) "echo" "openfaas-fn" 5
      = .returned none := by
  obtain ⟨err, hret, hiff, _⟩ := SetReplicas_nil_error_iff_200_or_202
    (sampleLib (echoStatus none)) (sampleQuery (.ok { StatusCode := 202, Body := none }))
    "echo" "openfaas-fn" 5 _ _ { StatusCode := 202, Body := none } rfl rfl rfl
  rw [hret, hiff.mpr (Or.inr rfl)]

/-! ## `GetReplicas` -/

/-- Claim C6: when the remote returns a response whose status code is not 200, `GetReplicas`
returns the zero-valued response together with the non-nil `non-200 status code` error, for
every body (a nil body included) and whatever the body would decode to. -/
theorem GetReplicas_non200_is_error (lib : Lib) (c : ScalingConsts) (s : ExternalServiceQuery)
    (serviceName serviceNamespace : String) (req : Request) (res : Response)
    (hreq : lib.NewRequest "GET" (functionURL s serviceName serviceNamespace) none = .ok req)
    (hdo : s.ProxyClient (s.inject req) = .ok res)
    (hcode : res.StatusCode ≠ 200) :
    GetReplicas lib c s serviceName serviceNamespace =
      (emptyServiceQueryResponse,
        some (non200Error res.StatusCode serviceName (readBody res))) := by
  simp [GetReplicas, hreq, hdo, hcode, StatusOK]

theorem GetReplicas_non200_is_error_witness :
    GetReplicas
        (sampleLib (echoStatus (some [("com.openfaas.scale.factor", "20")]))) sampleConsts
        (sampleQuery (.ok { StatusCode := 404, Body := some "not found" }))
        "echo" "openfaas-fn" =
      (emptyServiceQueryResponse,
        some "server returned non-200 status code (404) for function, echo, body: not found") :=
  (GetReplicas_non200_is_error
    (sampleLib (echoStatus (some [("com.openfaas.scale.factor", "20")]))) sampleConsts
    (sampleQuery (.ok { StatusCode := 404, Body := some "not found" }))
    "echo" "openfaas-fn" _ { StatusCode := 404, Body := some "not found" }
    rfl rfl (by decide)).trans (by decide)

/-- Claim C3 fails as stated: with the default scaling factor set to 0 and a 200 response
that decodes to a status without a labels mapping, `GetReplicas` runs no range check and
succeeds, returning the out-of-range default 0 as the scaling factor. -/
theorem GetReplicas_absent_labels_skips_range_check :
    GetReplicas (sampleLib (echoStatus none)) { sampleConsts with DefaultScalingFactor := 0 }
        (sampleQuery (.ok { StatusCode := 200, Body := some "" })) "echo" "openfaas-fn" =
      ({ Replicas := 3, MaxReplicas := 5, MinReplicas := 1, ScalingFactor := 0,
         AvailableReplicas := 3, Annotations := none }, none) := by
  decide

/-- Claim C3, amended: for every 200 response that decodes, when the labels mapping is present
the final scaling factor (taken from the label, or the default when the label is absent or
malformed) is validated against `0 < value <= 100`, and an out-of-range value gives the
`bad scaling factor` error and the zero-valued response; when the labels mapping is absent no
validation runs and the default scaling factor is returned as it is. -/
theorem GetReplicas_range_check_when_labels_present (lib : Lib) (c : ScalingConsts)
    (s : ExternalServiceQuery) (serviceName serviceNamespace : String) (req : Request)
    (res : Response) (st : FunctionStatus)
    (hreq : lib.NewRequest "GET" (functionURL s serviceName serviceNamespace) none = .ok req)
    (hdo : s.ProxyClient (s.inject req) = .ok res)
    (hcode : res.StatusCode = 200)
    (hdec : lib.Unmarshal (readBody res) = .ok st) :
    (∀ labels, st.Labels = some labels →
      ¬ (0 < extractLabelValue (labels.index c.ScalingFactorLabel) c.DefaultScalingFactor ∧
        extractLabelValue (labels.index c.ScalingFactorLabel) c.DefaultScalingFactor ≤ 100) →
      GetReplicas lib c s serviceName serviceNamespace =
        (emptyServiceQueryResponse,
          some (badScalingFactorError
            (extractLabelValue (labels.index c.ScalingFactorLabel) c.DefaultScalingFactor)))) ∧
    (st.Labels = none →
      (GetReplicas lib c s serviceName serviceNamespace).2 = none ∧
      (GetReplicas lib c s serviceName serviceNamespace).1.ScalingFactor =
        c.DefaultScalingFactor) := by
  rw [GetReplicas_of_decoded lib c s serviceName serviceNamespace req res st hreq hdo hcode hdec]
  constructor
  · intro labels hl hbad
    simp only [policyResponse, hl]
    rw [if_neg hbad]
  · intro hl
    simp [policyResponse, hl]

theorem GetReplicas_range_check_when_labels_present_witness :
    GetReplicas (sampleLib (echoStatus (some [])))
        { sampleConsts with DefaultScalingFactor := 0 }
        (sampleQuery (.ok { StatusCode := 200, Body := some "" })) "echo" "openfaas-fn" =
      (emptyServiceQueryResponse,
        some "bad scaling factor: 0, is not in range of [0 - 100]") :=
  ((GetReplicas_range_check_when_labels_present (sampleLib (echoStatus (some [])))
    { sampleConsts with DefaultScalingFactor := 0 }
    (sampleQuery (.ok { StatusCode := 200, Body := some "" })) "echo" "openfaas-fn" _
    { StatusCode := 200, Body := some "" } (echoStatus (some [])) rfl rfl rfl rfl).1
    [] rfl (by decide)).trans (by decide)

/-- Claim C4 fails as stated: the scaling-factor label carrying the decimal numeral of
`v = 10^20` (greater than 100, and beyond what `strconv.Atoi` can parse) is treated as a
malformed label, the in-range default 10 is used, and `GetReplicas` succeeds. -/
theorem GetReplicas_oversized_factor_label_falls_back :
    GetReplicas
        (sampleLib (echoStatus (some
          [("com.openfaas.scale.factor", toString (100000000000000000000 : Nat))])))
        sampleConsts (sampleQuery (.ok { StatusCode := 200, Body := some "" }))
        "echo" "openfaas-fn" =
      ({ Replicas := 3, MaxReplicas := 5, MinReplicas := 1, ScalingFactor := 10,
         AvailableReplicas := 3, Annotations := none }, none) := by
  decide

/-- Claim C4, amended: for every 200 response that decodes and whose labels mapping carries a
scaling-factor label with the decimal numeral of `v`, where `v == 0` or `100 < v < 2^63` (the
values `strconv.Atoi` parses), `GetReplicas` returns the `bad scaling factor` error naming `v`
and the zero-valued response. -/
theorem GetReplicas_rejects_out_of_range_factor (lib : Lib) (c : ScalingConsts)
    (s : ExternalServiceQuery) (serviceName serviceNamespace : String) (req : Request)
    (res : Response) (st : FunctionStatus) (labels : GoMap) (v : Nat)
    (hreq : lib.NewRequest "GET" (functionURL s serviceName serviceNamespace) none = .ok req)
    (hdo : s.ProxyClient (s.inject req) = .ok res)
    (hcode : res.StatusCode = 200)
    (hdec : lib.Unmarshal (readBody res) = .ok st)
    (hlabels : st.Labels = some labels)
    (hfactor : labels.lookup c.ScalingFactorLabel = some (toString v))
    (hv : v = 0 ∨ 100 < v) (hfit : v < 2 ^ 63) :
    GetReplicas lib c s serviceName serviceNamespace =
      (emptyServiceQueryResponse, some (badScalingFactorError v)) := by
  rw [GetReplicas_of_decoded lib c s serviceName serviceNamespace req res st hreq hdo hcode hdec]
  have hx : extractLabelValue (labels.index c.ScalingFactorLabel) c.DefaultScalingFactor = v := by
    rw [GoMap.index_of_lookup labels _ _ hfactor]
    exact extractLabelValue_toString v _ hfit
  have hbad : ¬ (v > 0 ∧ v ≤ 100) := by omega
  simp only [policyResponse, hlabels, hx]
  rw [if_neg hbad]

theorem GetReplicas_rejects_out_of_range_factor_witness :
    GetReplicas (sampleLib (echoStatus (some [("com.openfaas.scale.factor", "150")])))
        sampleConsts (sampleQuery (.ok { StatusCode := 200, Body := some "" }))
        "echo" "openfaas-fn" =
      (emptyServiceQueryResponse,
        some "bad scaling factor: 150, is not in range of [0 - 100]") :=
  (GetReplicas_rejects_out_of_range_factor
    (sampleLib (echoStatus (some [("com.openfaas.scale.factor", "150")]))) sampleConsts
    (sampleQuery (.ok { StatusCode := 200, Body := some "" })) "echo" "openfaas-fn" _
    { StatusCode := 200, Body := some "" }
    (echoStatus (some [("com.openfaas.scale.factor", "150")]))
    [("com.openfaas.scale.factor", "150")] 150 rfl rfl rfl rfl rfl (by decide)
    (Or.inr (by decide)) (by decide)).trans (by decide)

/-- Claim C7: for every 200 response that decodes and whose labels mapping carries a
scaling-factor label with the decimal numeral of `v`, `0 < v <= 100`, `GetReplicas` returns a
nil error and a response whose `ScalingFactor` is `v`. -/
theorem GetReplicas_in_range_factor_label (lib : Lib) (c : ScalingConsts)
    (s : ExternalServiceQuery) (serviceName serviceNamespace : String) (req : Request)
    (res : Response) (st : FunctionStatus) (labels : GoMap) (v : Nat)
    (hreq : lib.NewRequest "GET" (functionURL s serviceName serviceNamespace) none = .ok req)
    (hdo : s.ProxyClient (s.inject req) = .ok res)
    (hcode : res.StatusCode = 200)
    (hdec : lib.Unmarshal (readBody res) = .ok st)
    (hlabels : st.Labels = some labels)
    (hfactor : labels.lookup c.ScalingFactorLabel = some (toString v))
    (hpos : 0 < v) (hle : v ≤ 100) :
    (GetReplicas lib c s serviceName serviceNamespace).2 = none ∧
      (GetReplicas lib c s serviceName serviceNamespace).1.ScalingFactor = v := by
  rw [GetReplicas_of_decoded lib c s serviceName serviceNamespace req res st hreq hdo hcode hdec]
  have hx : extractLabelValue (labels.index c.ScalingFactorLabel) c.DefaultScalingFactor = v := by
    rw [GoMap.index_of_lookup labels _ _ hfactor]
    exact extractLabelValue_toString v _ (by omega)
  have hgood : v > 0 ∧ v ≤ 100 := ⟨hpos, hle⟩
  simp only [policyResponse, hlabels, hx]
  rw [if_pos hgood]
  exact ⟨rfl, rfl⟩

theorem GetReplicas_in_range_factor_label_witness :
    (GetReplicas (sampleLib (echoStatus (some [("com.openfaas.scale.factor", "20")])))
        sampleConsts (sampleQuery (.ok { StatusCode := 200, Body := some "" }))
        "echo" "openfaas-fn").2 = none ∧
    (GetReplicas (sampleLib (echoStatus (some [("com.openfaas.scale.factor", "20")])))
        sampleConsts (sampleQuery (.ok { StatusCode := 200, Body := some "" }))
        "echo" "openfaas-fn").1.ScalingFactor = 20 :=
  GetReplicas_in_range_factor_label
    (sampleLib (echoStatus (some [("com.openfaas.scale.factor", "20")]))) sampleConsts
    (sampleQuery (.ok { StatusCode := 200, Body := some "" })) "echo" "openfaas-fn" _
    { StatusCode := 200, Body := some "" }
    (echoStatus (some [("com.openfaas.scale.factor", "20")]))
    [("com.openfaas.scale.factor", "20")] 20 rfl rfl rfl rfl rfl (by decide)
    (by decide) (by decide)

/-- Claim C8: for every 200 response that decodes, if the labels mapping is absent, or is
present without a scaling-factor label, or carries a scaling-factor label that `strconv.Atoi`
rejects (every non-numeric value is rejected, see `Atoi_error_of_non_numeral`), and the
default scaling factor lies in `(0, 100]`, then `GetReplicas` returns a nil error and a response
whose `ScalingFactor` is the default. -/
theorem GetReplicas_default_factor_on_absent_or_malformed (lib : Lib) (c : ScalingConsts)
    (s : ExternalServiceQuery) (serviceName serviceNamespace : String) (req : Request)
    (res : Response) (st : FunctionStatus)
    (hreq : lib.NewRequest "GET" (functionURL s serviceName serviceNamespace) none = .ok req)
    (hdo : s.ProxyClient (s.inject req) = .ok res)
    (hcode : res.StatusCode = 200)
    (hdec : lib.Unmarshal (readBody res) = .ok st)
    (hdefault : 0 < c.DefaultScalingFactor ∧ c.DefaultScalingFactor ≤ 100)
    (hlabel : st.Labels = none ∨
      ∃ labels, st.Labels = some labels ∧
        (labels.lookup c.ScalingFactorLabel = none ∨
          ∃ raw e, labels.lookup c.ScalingFactorLabel = some raw ∧ Atoi raw = .error e)) :
    (GetReplicas lib c s serviceName serviceNamespace).2 = none ∧
      (GetReplicas lib c s serviceName serviceNamespace).1.ScalingFactor =
        c.DefaultScalingFactor := by
  rw [GetReplicas_of_decoded lib c s serviceName serviceNamespace req res st hreq hdo hcode hdec]
  rcases hlabel with hnone | ⟨labels, hsome, hkey⟩
  · simp [policyResponse, hnone]
  · have hx : extractLabelValue (labels.index c.ScalingFactorLabel) c.DefaultScalingFactor =
        c.DefaultScalingFactor := by
      rcases hkey with habsent | ⟨raw, e, hraw, herr⟩
      · rw [GoMap.index_of_lookup_none labels _ habsent]
        rfl
      · rw [GoMap.index_of_lookup labels _ _ hraw]
        simp only [extractLabelValue, herr]
        split <;> rfl
    have hgood : c.DefaultScalingFactor > 0 ∧ c.DefaultScalingFactor ≤ 100 := hdefault
    simp only [policyResponse, hsome, hx]
    rw [if_pos hgood]
    exact ⟨rfl, rfl⟩

theorem GetReplicas_default_factor_on_absent_or_malformed_witness :
    (GetReplicas (sampleLib (echoStatus (some [("com.openfaas.scale.factor", "abc")])))
        sampleConsts (sampleQuery (.ok { StatusCode := 200, Body := some "" }))
        "echo" "openfaas-fn").2 = none ∧
    (GetReplicas (sampleLib (echoStatus (some [("com.openfaas.scale.factor", "abc")])))
        sampleConsts (sampleQuery (.ok { StatusCode := 200, Body := some "" }))
        "echo" "openfaas-fn").1.ScalingFactor = 10 :=
  GetReplicas_default_factor_on_absent_or_malformed
    (sampleLib (echoStatus (some [("com.openfaas.scale.factor", "abc")]))) sampleConsts
    (sampleQuery (.ok { StatusCode := 200, Body := some "" })) "echo" "openfaas-fn" _
    { StatusCode := 200, Body := some "" }
    (echoStatus (some [("com.openfaas.scale.factor", "abc")])) rfl rfl rfl rfl (by decide)
    (Or.inr ⟨[("com.openfaas.scale.factor", "abc")], rfl,
      Or.inr ⟨"abc", .ErrSyntax, by decide, rfl⟩⟩)

/-- Claim C9: for every 200 response that decodes to a remote status `st` and passes the
scaling-factor check (which runs only when the labels mapping is present), `GetReplicas`
returns a nil error and the response whose `Replicas` and `AvailableReplicas` are those of
`st`, whose `Annotations` are those of `st` unchanged (nil stays nil), and whose `MinReplicas`,
`MaxReplicas` and `ScalingFactor` are the defaults, each replaced by `extractLabelValue` of its
label over that default when the labels mapping is present. -/
theorem GetReplicas_success_response (lib : Lib) (c : ScalingConsts)
    (s : ExternalServiceQuery) (serviceName serviceNamespace : String) (req : Request)
    (res : Response) (st : FunctionStatus)
    (hreq : lib.NewRequest "GET" (functionURL s serviceName serviceNamespace) none = .ok req)
    (hdo : s.ProxyClient (s.inject req) = .ok res)
    (hcode : res.StatusCode = 200)
    (hdec : lib.Unmarshal (readBody res) = .ok st)
    (hcheck : ∀ labels, st.Labels = some labels →
      0 < extractLabelValue (labels.index c.ScalingFactorLabel) c.DefaultScalingFactor ∧
        extractLabelValue (labels.index c.ScalingFactorLabel) c.DefaultScalingFactor ≤ 100) :
    GetReplicas lib c s serviceName serviceNamespace =
      ({ Replicas := st.Replicas,
         MaxReplicas :=
           match st.Labels with
           | some labels => extractLabelValue (labels.index c.MaxScaleLabel) c.DefaultMaxReplicas
           | none => c.DefaultMaxReplicas,
         MinReplicas :=
           match st.Labels with
           | some labels => extractLabelValue (labels.index c.MinScaleLabel) c.DefaultMinReplicas
           | none => c.DefaultMinReplicas,
         ScalingFactor :=
           match st.Labels with
           | some labels =>
             extractLabelValue (labels.index c.ScalingFactorLabel) c.DefaultScalingFactor
           | none => c.DefaultScalingFactor,
         AvailableReplicas := st.AvailableReplicas,
         Annotations := st.Annotations }, none) := by
  rw [GetReplicas_of_decoded lib c s serviceName serviceNamespace req res st hreq hdo hcode hdec]
  cases hl : st.Labels with
  | none => simp [policyResponse, hl]
  | some labels =>
    have hgood := hcheck labels hl
    simp only [policyResponse, hl]
    rw [if_pos hgood]

theorem GetReplicas_success_response_witness :
    GetReplicas
        (sampleLib (echoStatus (some
          [("com.openfaas.scale.min", "2"), ("com.openfaas.scale.factor", "20")])))
        sampleConsts (sampleQuery (.ok { StatusCode := 200, Body := some "" }))
        "echo" "openfaas-fn" =
      ({ Replicas := 3, MaxReplicas := sampleConsts.DefaultMaxReplicas, MinReplicas := 2,
         ScalingFactor := 20, AvailableReplicas := 3, Annotations := none }, none) :=
  (GetReplicas_success_response
    (sampleLib (echoStatus (some
      [("com.openfaas.scale.min", "2"), ("com.openfaas.scale.factor", "20")])))
    sampleConsts (sampleQuery (.ok { StatusCode := 200, Body := some "" }))
    "echo" "openfaas-fn" _ { StatusCode := 200, Body := some "" }
    (echoStatus (some [("com.openfaas.scale.min", "2"), ("com.openfaas.scale.factor", "20")]))
    rfl rfl rfl rfl
    (fun labels h => by
      cases h
      decide)).trans (by decide)

/-- Claim C10: `GetReplicas` enforces no ordering between the two bounds.  For every 200
response that decodes, whose labels set the minimum-bound label to the numeral of `a` and the
maximum-bound label to the numeral of a smaller `b`, and whose scaling factor passes its check,
`GetReplicas` returns a nil error and a response with `MinReplicas = a > b = MaxReplicas`. -/
theorem GetReplicas_no_min_max_ordering (lib : Lib) (c : ScalingConsts)
    (s : ExternalServiceQuery) (serviceName serviceNamespace : String) (req : Request)
    (res : Response) (st : FunctionStatus) (labels : GoMap) (a b : Nat)
    (hreq : lib.NewRequest "GET" (functionURL s serviceName serviceNamespace) none = .ok req)
    (hdo : s.ProxyClient (s.inject req) = .ok res)
    (hcode : res.StatusCode = 200)
    (hdec : lib.Unmarshal (readBody res) = .ok st)
    (hlabels : st.Labels = some labels)
    (hmin : labels.lookup c.MinScaleLabel = some (toString a))
    (hmax : labels.lookup c.MaxScaleLabel = some (toString b))
    (hcheck : 0 < extractLabelValue (labels.index c.ScalingFactorLabel) c.DefaultScalingFactor ∧
      extractLabelValue (labels.index c.ScalingFactorLabel) c.DefaultScalingFactor ≤ 100)
    (hab : b < a) (ha : a < 2 ^ 63) :
    (GetReplicas lib c s serviceName serviceNamespace).2 = none ∧
      (GetReplicas lib c s serviceName serviceNamespace).1.MinReplicas = a ∧
      (GetReplicas lib c s serviceName serviceNamespace).1.MaxReplicas = b ∧
      (GetReplicas lib c s serviceName serviceNamespace).1.MinReplicas >
        (GetReplicas lib c s serviceName serviceNamespace).1.MaxReplicas := by
  rw [GetReplicas_of_decoded lib c s serviceName serviceNamespace req res st hreq hdo hcode hdec]
  have hxmin : extractLabelValue (labels.index c.MinScaleLabel) c.DefaultMinReplicas = a := by
    rw [GoMap.index_of_lookup labels _ _ hmin]
    exact extractLabelValue_toString a _ ha
  have hxmax : extractLabelValue (labels.index c.MaxScaleLabel) c.DefaultMaxReplicas = b := by
    rw [GoMap.index_of_lookup labels _ _ hmax]
    exact extractLabelValue_toString b _ (by omega)
  simp only [policyResponse, hlabels, hxmin, hxmax]
  rw [if_pos hcheck]
  exact ⟨rfl, rfl, rfl, hab⟩

theorem GetReplicas_no_min_max_ordering_witness :
    GetReplicas
        (sampleLib (echoStatus (some [("com.openfaas.scale.min", "5"),
          ("com.openfaas.scale.max", "2"), ("com.openfaas.scale.factor", "20")])))
        sampleConsts (sampleQuery (.ok { StatusCode := 200, Body := some "" }))
        "echo" "openfaas-fn" =
      ({ Replicas := 3, MaxReplicas := 2, MinReplicas := 5, ScalingFactor := 20,
         AvailableReplicas := 3, Annotations := none }, none) ∧
    (GetReplicas
        (sampleLib (echoStatus (some [("com.openfaas.scale.min", "5"),
          ("com.openfaas.scale.max", "2"), ("com.openfaas.scale.factor", "20")])))
        sampleConsts (sampleQuery (.ok { StatusCode := 200, Body := some "" }))
        "echo" "openfaas-fn").1.MinReplicas >
      (GetReplicas
        (sampleLib (echoStatus (some [("com.openfaas.scale.min", "5"),
          ("com.openfaas.scale.max", "2"), ("com.openfaas.scale.factor", "20")])))
        sampleConsts (sampleQuery (.ok { StatusCode := 200, Body := some "" }))
        "echo" "openfaas-fn").1.MaxReplicas :=
  ⟨by decide,
    (GetReplicas_no_min_max_ordering
      (sampleLib (echoStatus (some [("com.openfaas.scale.min", "5"),
        ("com.openfaas.scale.max", "2"), ("com.openfaas.scale.factor", "20")])))
      sampleConsts (sampleQuery (.ok { StatusCode := 200, Body := some "" }))
      "echo" "openfaas-fn" _ { StatusCode := 200, Body := some "" }
      (echoStatus (some [("com.openfaas.scale.min", "5"),
        ("com.openfaas.scale.max", "2"), ("com.openfaas.scale.factor", "20")]))
      [("com.openfaas.scale.min", "5"), ("com.openfaas.scale.max", "2"),
        ("com.openfaas.scale.factor", "20")] 5 2 rfl rfl rfl rfl rfl (by decide) (by decide)
      (by decide) (by decide) (by decide)).2.2.2⟩

end Faas

